import Mathlib

/-!
Verification of the Flusso FLS110 sensor-conversion routines
(`src/main.c`, `src/utilities-config.h`) against their specification.

Modelling conventions:
* C `double` values are modelled as rationals (`ℚ`); the claims under
  study concern which closed-form expressions the code computes and how
  data flows through the program, not IEEE-754 rounding.
* C arrays of doubles are modelled as total functions `ℕ → ℚ`, written
  with `Function.update`; the code only ever accesses the declared
  indices.
* An uninitialized C variable is modelled as an explicit parameter
  holding an arbitrary value (named `...Init`): a result that does not
  depend on that parameter is independent of the indeterminate initial
  contents, and a result that does depend on it exhibits a read of
  uninitialized memory.
* The external UxHw uncertainty runtime (declared in `uxhw.h`, outside
  this repository) is modelled as an abstract sampling function passed
  in as a parameter; in the main loop it additionally receives the
  iteration number, since each call may return a fresh sample.
-/

/-! ## Constants from `src/utilities-config.h` -/

def kSensorCalibrationConstant1 : ℚ := 2499.26

def kSensorCalibrationConstant2 : ℚ := 117682.20

def kSensorCalibrationConstant3 : ℚ := -314364.00

def kDefaultInputDistributionHxferUniformDistLow : ℚ := 0.010

def kDefaultInputDistributionHxferUniformDistHigh : ℚ := 0.050

def kDefaultInputDistributionTflowUniformDistLow : ℚ := 293.0

def kDefaultInputDistributionTflowUniformDistHigh : ℚ := 294.0

def kDefaultInputDistributionT0UniformDistLow : ℚ := 273.0

def kDefaultInputDistributionT0UniformDistHigh : ℚ := 273.5

def kDefaultInputDistributionPflowUniformDistLow : ℚ := 420000.00

def kDefaultInputDistributionPflowUniformDistHigh : ℚ := 425000.00

def kDefaultInputDistributionP0UniformDistLow : ℚ := 400000.00

def kDefaultInputDistributionP0UniformDistHigh : ℚ := 405000.00

/-! Enumeration values of `InputDistributionIndex`. -/

def kInputDistributionIndexHxfer : ℕ := 0

def kInputDistributionIndexTflow : ℕ := 1

def kInputDistributionIndexT0 : ℕ := 2

def kInputDistributionIndexPflow : ℕ := 3

def kInputDistributionIndexP0 : ℕ := 4

def kInputDistributionIndexMax : ℕ := 5

/-! Enumeration values of `OutputDistributionIndex`. -/

def kOutputDistributionIndexCalibratedMassFlowOutput : ℕ := 0

def kOutputDistributionIndexCalibratedDifferentialPressureOutput : ℕ := 1

def kOutputDistributionIndexMax : ℕ := 2

/-! ## Command-line arguments

Only the fields of `CommonCommandLineArguments` that `main.c` reads are
modelled; they are set by `getCommandLineArguments` (common utilities,
outside `src/`), which validates `outputSelect` to lie in
`[0, kOutputDistributionIndexMax]`. -/

structure CommonCommandLineArguments where
  outputSelect : ℕ
  isMonteCarloMode : Bool
  numberOfMonteCarloIterations : ℕ
  isTimingEnabled : Bool
  isBenchmarkingMode : Bool
  isOutputJSONMode : Bool
  isWriteToFileEnabled : Bool

structure CommandLineArguments where
  common : CommonCommandLineArguments

/-! ## `calculateSensorOutput` (`src/main.c`, lines 43-85)

The local `calibratedValue` is uninitialized at function entry and is
returned unassigned when neither branch fires; its indeterminate initial
value is the parameter `calibratedValueInit`.  The result is the pair of
the final contents of `outputDistributions` and the returned value. -/

def calculateSensorOutput (arguments : CommandLineArguments)
    (inputDistributions : ℕ → ℚ) (outputDistributions : ℕ → ℚ)
    (calibratedValueInit : ℚ) : (ℕ → ℚ) × ℚ :=
  let h := inputDistributions kInputDistributionIndexHxfer
  let m := kSensorCalibrationConstant3 * h ^ 3 + kSensorCalibrationConstant2 * h ^ 2 +
    kSensorCalibrationConstant1
  let afterMassFlow :=
    if arguments.common.outputSelect = kOutputDistributionIndexMax ∨
        arguments.common.outputSelect = kOutputDistributionIndexCalibratedMassFlowOutput then
      (Function.update outputDistributions kOutputDistributionIndexCalibratedMassFlowOutput m, m)
    else
      (outputDistributions, calibratedValueInit)
  if arguments.common.outputSelect = kOutputDistributionIndexMax ∨
      arguments.common.outputSelect = kOutputDistributionIndexCalibratedDifferentialPressureOutput then
    let Tflow := inputDistributions kInputDistributionIndexTflow
    let T0 := inputDistributions kInputDistributionIndexT0
    let Pflow := inputDistributions kInputDistributionIndexPflow
    let P0 := inputDistributions kInputDistributionIndexP0
    let calibratedValue := m * (Tflow / T0) * (P0 / Pflow)
    (Function.update afterMassFlow.1 kOutputDistributionIndexCalibratedDifferentialPressureOutput
        calibratedValue,
      calibratedValue)
  else
    afterMassFlow

/-- `outputWritten outputSelect i` holds exactly when the branch of
`calculateSensorOutput` that writes `outputDistributions[i]` executes:
either all outputs are selected (`outputSelect = kOutputDistributionIndexMax`)
or `outputSelect` names index `i` itself. -/
def outputWritten (outputSelect : ℕ) (i : ℕ) : Prop :=
  outputSelect = kOutputDistributionIndexMax ∨ outputSelect = i

instance (outputSelect i : ℕ) : Decidable (outputWritten outputSelect i) := by
  unfold outputWritten
  infer_instance

/-! ## `setInputDistributionsViaUxHwCall` (`src/main.c`, lines 92-115) -/

def setInputDistributionsViaUxHwCall (uxHwDoubleUniformDist : ℚ → ℚ → ℚ)
    (inputDistributions : ℕ → ℚ) : ℕ → ℚ :=
  let d1 := Function.update inputDistributions kInputDistributionIndexHxfer
    (uxHwDoubleUniformDist kDefaultInputDistributionHxferUniformDistLow
      kDefaultInputDistributionHxferUniformDistHigh)
  let d2 := Function.update d1 kInputDistributionIndexTflow
    (uxHwDoubleUniformDist kDefaultInputDistributionTflowUniformDistLow
      kDefaultInputDistributionTflowUniformDistHigh)
  let d3 := Function.update d2 kInputDistributionIndexT0
    (uxHwDoubleUniformDist kDefaultInputDistributionT0UniformDistLow
      kDefaultInputDistributionT0UniformDistHigh)
  let d4 := Function.update d3 kInputDistributionIndexPflow
    (uxHwDoubleUniformDist kDefaultInputDistributionPflowUniformDistLow
      kDefaultInputDistributionPflowUniformDistHigh)
  Function.update d4 kInputDistributionIndexP0
    (uxHwDoubleUniformDist kDefaultInputDistributionP0UniformDistLow
      kDefaultInputDistributionP0UniformDistHigh)

/-! ## Mean and variance aggregation -/

structure MeanAndVariance where
  mean : ℚ
  variance : ℚ

/-- Modelled from the spec: `calculateMeanAndVarianceOfDoubleSamples` is
provided by the common utility sources of this repository, which are not
under `src/`; the spec describes it as the "mean/variance aggregation over
the resulting sample set" ("a streaming mean/variance computation").  It
receives a buffer of samples and a sample count and returns their mean and
variance. -/
def calculateMeanAndVarianceOfDoubleSamples (samples : List ℚ) (sampleCount : ℕ) :
    MeanAndVariance :=
  let used := samples.take sampleCount
  let mean := used.sum / (sampleCount : ℚ)
  let variance := (used.map (fun x => (x - mean) ^ 2)).sum / (sampleCount : ℚ)
  ⟨mean, variance⟩

/-! ## The driver in `main` (`src/main.c`, lines 117-290)

State carried across loop iterations.  `monteCarloOutputSamples` is
`none` when the C pointer is `NULL` (Monte Carlo mode disabled) and
`some l` when it points to a buffer whose initialized prefix is `l`;
iteration `i` writes slot `i`, so appending models the store
`monteCarloOutputSamples[i] = calibratedSensorOutput`. -/

structure MainState where
  inputDistributions : ℕ → ℚ
  outputDistributions : ℕ → ℚ
  calibratedSensorOutput : ℚ
  monteCarloOutputSamples : Option (List ℚ)

/-- One iteration of the main loop (`src/main.c`, lines 165-183):
set the input distributions, evaluate the calibration, and in Monte Carlo
mode store the returned value at the current index. -/
def mainLoopStep (arguments : CommandLineArguments) (uxHw : ℕ → ℚ → ℚ → ℚ)
    (calibratedValueInit : ℚ) (i : ℕ) (s : MainState) : MainState :=
  let ins := setInputDistributionsViaUxHwCall (uxHw i) s.inputDistributions
  let r := calculateSensorOutput arguments ins s.outputDistributions calibratedValueInit
  { inputDistributions := ins
    outputDistributions := r.1
    calibratedSensorOutput := r.2
    monteCarloOutputSamples :=
      if arguments.common.isMonteCarloMode then
        s.monteCarloOutputSamples.map (fun l => l ++ [r.2])
      else
        s.monteCarloOutputSamples }

/-- `mainLoop arguments uxHw calibratedValueInit n s` runs iterations
`0, 1, …, n-1` of the main loop starting from state `s`. -/
def mainLoop (arguments : CommandLineArguments) (uxHw : ℕ → ℚ → ℚ → ℚ)
    (calibratedValueInit : ℚ) : ℕ → MainState → MainState
  | 0, s => s
  | n + 1, s =>
      mainLoopStep arguments uxHw calibratedValueInit n
        (mainLoop arguments uxHw calibratedValueInit n s)

/-- Observable outcome of a run of `main`.
`savedCpuTimeMicroseconds` is the second argument passed to
`saveMonteCarloDoubleDataToDataDotOutFile` (`none` when that call does not
happen, i.e. outside Monte Carlo mode). -/
structure MainResult where
  reportedCalibratedSensorOutput : ℚ
  outputDistributions : ℕ → ℚ
  monteCarloOutputSamples : Option (List ℚ)
  savedCpuTimeMicroseconds : Option ℚ

/-- The computation of `main` (`src/main.c`, lines 117-290), after
successful argument parsing and excluding printing and file output.
`inputDistributionsInit`, `outputDistributionsInit` and
`calibratedSensorOutputInit` are the indeterminate initial contents of the
corresponding uninitialized locals; `cpuTimeUsedSecondsInit` is the
indeterminate initial value of `cpuTimeUsedSeconds`, and
`measuredCpuTimeSeconds` is the elapsed CPU time the timing code computes
when it runs. -/
def mainModel (arguments : CommandLineArguments) (uxHw : ℕ → ℚ → ℚ → ℚ)
    (inputDistributionsInit outputDistributionsInit : ℕ → ℚ)
    (calibratedSensorOutputInit calibratedValueInit : ℚ)
    (cpuTimeUsedSecondsInit measuredCpuTimeSeconds : ℚ) : MainResult :=
  let samples0 : Option (List ℚ) :=
    if arguments.common.isMonteCarloMode then some [] else none
  let s0 : MainState :=
    ⟨inputDistributionsInit, outputDistributionsInit, calibratedSensorOutputInit, samples0⟩
  let s := mainLoop arguments uxHw calibratedValueInit
    arguments.common.numberOfMonteCarloIterations s0
  let calibratedSensorOutput :=
    if arguments.common.isMonteCarloMode then
      (calculateMeanAndVarianceOfDoubleSamples (s.monteCarloOutputSamples.getD [])
        arguments.common.numberOfMonteCarloIterations).mean
    else
      s.calibratedSensorOutput
  let cpuTimeUsedSeconds :=
    if arguments.common.isTimingEnabled || arguments.common.isBenchmarkingMode then
      measuredCpuTimeSeconds
    else
      cpuTimeUsedSecondsInit
  let savedCpuTime :=
    if arguments.common.isMonteCarloMode then some (cpuTimeUsedSeconds * 1000000) else none
  ⟨calibratedSensorOutput, s.outputDistributions, s.monteCarloOutputSamples, savedCpuTime⟩

/-! ## Concrete inputs used to instantiate theorems that carry hypotheses -/

def wArgsMassFlow : CommandLineArguments := ⟨⟨0, false, 1, false, false, false, false⟩⟩

def wArgsDiffPressure : CommandLineArguments := ⟨⟨1, false, 1, false, false, false, false⟩⟩

def wArgsAllOutputs : CommandLineArguments := ⟨⟨2, false, 1, false, false, false, false⟩⟩

def wArgsAllOutputsB : CommandLineArguments := ⟨⟨2, true, 5, true, true, true, true⟩⟩

def wArgsMonteCarlo : CommandLineArguments := ⟨⟨2, true, 1, false, false, false, false⟩⟩

def wArgsNative : CommandLineArguments := ⟨⟨2, false, 1, false, false, false, false⟩⟩

def wIns : ℕ → ℚ := fun n =>
  if n = 0 then 0.02
  else if n = 1 then 293.5
  else if n = 2 then 273.2
  else if n = 3 then 421000
  else 402000

def wOuts : ℕ → ℚ := fun _ => 7

def wOutsB : ℕ → ℚ := fun _ => 9

def wUxHw : ℕ → ℚ → ℚ → ℚ := fun _ low _ => low

/-! ## Theorems -/

/-- C1: for every input array (and any `outputSelect` under which the mass
flow output is computed), the calibrated mass flow output written by
`calculateSensorOutput` equals the fixed third-order polynomial
`kSensorCalibrationConstant3 * h^3 + kSensorCalibrationConstant2 * h^2 +
kSensorCalibrationConstant1` of the `Hxfer` entry `h`, with the constants
`-314364.00`, `117682.20` and `2499.26`. -/
theorem claim_C1_massFlowPolynomial (arguments : CommandLineArguments)
    (inputDistributions outputDistributions : ℕ → ℚ) (calibratedValueInit : ℚ)
    (hsel : arguments.common.outputSelect = kOutputDistributionIndexMax ∨
      arguments.common.outputSelect = kOutputDistributionIndexCalibratedMassFlowOutput) :
    (calculateSensorOutput arguments inputDistributions outputDistributions
        calibratedValueInit).1 kOutputDistributionIndexCalibratedMassFlowOutput =
      -314364.00 * inputDistributions kInputDistributionIndexHxfer ^ 3 +
        117682.20 * inputDistributions kInputDistributionIndexHxfer ^ 2 + 2499.26 := by
  rcases hsel with h | h <;>
    simp [calculateSensorOutput, h, kOutputDistributionIndexMax,
      kOutputDistributionIndexCalibratedMassFlowOutput,
      kOutputDistributionIndexCalibratedDifferentialPressureOutput,
      kSensorCalibrationConstant1, kSensorCalibrationConstant2, kSensorCalibrationConstant3,
      Function.update_apply]

theorem claim_C1_massFlowPolynomial_witness :
    (calculateSensorOutput wArgsMassFlow wIns wOuts 0).1
        kOutputDistributionIndexCalibratedMassFlowOutput =
      -314364.00 * wIns kInputDistributionIndexHxfer ^ 3 +
        117682.20 * wIns kInputDistributionIndexHxfer ^ 2 + 2499.26 :=
  claim_C1_massFlowPolynomial wArgsMassFlow wIns wOuts 0 (Or.inr rfl)

/-- C2: for every input array with nonzero `T0` and `Pflow` entries (and
any `outputSelect` under which the differential pressure output is
computed), the calibrated differential pressure output written by
`calculateSensorOutput` equals `m * (Tflow/T0) * (P0/Pflow)`, where `m` is
the mass flow polynomial of the `Hxfer` entry. -/
theorem claim_C2_differentialPressureFormula (arguments : CommandLineArguments)
    (inputDistributions outputDistributions : ℕ → ℚ) (calibratedValueInit : ℚ)
    (hsel : arguments.common.outputSelect = kOutputDistributionIndexMax ∨
      arguments.common.outputSelect =
        kOutputDistributionIndexCalibratedDifferentialPressureOutput)
    (hT0 : inputDistributions kInputDistributionIndexT0 ≠ 0)
    (hPflow : inputDistributions kInputDistributionIndexPflow ≠ 0) :
    (calculateSensorOutput arguments inputDistributions outputDistributions
        calibratedValueInit).1 kOutputDistributionIndexCalibratedDifferentialPressureOutput =
      (kSensorCalibrationConstant3 * inputDistributions kInputDistributionIndexHxfer ^ 3 +
          kSensorCalibrationConstant2 * inputDistributions kInputDistributionIndexHxfer ^ 2 +
          kSensorCalibrationConstant1) *
        (inputDistributions kInputDistributionIndexTflow /
          inputDistributions kInputDistributionIndexT0) *
        (inputDistributions kInputDistributionIndexP0 /
          inputDistributions kInputDistributionIndexPflow) := by
  rcases hsel with h | h <;>
    simp [calculateSensorOutput, h, kOutputDistributionIndexMax,
      kOutputDistributionIndexCalibratedMassFlowOutput,
      kOutputDistributionIndexCalibratedDifferentialPressureOutput,
      Function.update_apply]

theorem claim_C2_differentialPressureFormula_witness :
    (calculateSensorOutput wArgsDiffPressure wIns wOuts 0).1
        kOutputDistributionIndexCalibratedDifferentialPressureOutput =
      (kSensorCalibrationConstant3 * wIns kInputDistributionIndexHxfer ^ 3 +
          kSensorCalibrationConstant2 * wIns kInputDistributionIndexHxfer ^ 2 +
          kSensorCalibrationConstant1) *
        (wIns kInputDistributionIndexTflow / wIns kInputDistributionIndexT0) *
        (wIns kInputDistributionIndexP0 / wIns kInputDistributionIndexPflow) :=
  claim_C2_differentialPressureFormula wArgsDiffPressure wIns wOuts 0 (Or.inr rfl)
    (by norm_num [wIns, kInputDistributionIndexT0])
    (by norm_num [wIns, kInputDistributionIndexPflow])

/-- C6: every call to `setInputDistributionsViaUxHwCall` assigns each of
the five input entries (`Hxfer`, `Tflow`, `T0`, `Pflow`, `P0`) the value
returned by the uniform-distribution sampler at the fixed low/high bounds
configured for that input, and each configured low bound is strictly below
the corresponding high bound. -/
theorem claim_C6_uniformInputAssignments (uxHwDoubleUniformDist : ℚ → ℚ → ℚ)
    (inputDistributions : ℕ → ℚ) :
    setInputDistributionsViaUxHwCall uxHwDoubleUniformDist inputDistributions
        kInputDistributionIndexHxfer =
      uxHwDoubleUniformDist kDefaultInputDistributionHxferUniformDistLow
        kDefaultInputDistributionHxferUniformDistHigh ∧
    setInputDistributionsViaUxHwCall uxHwDoubleUniformDist inputDistributions
        kInputDistributionIndexTflow =
      uxHwDoubleUniformDist kDefaultInputDistributionTflowUniformDistLow
        kDefaultInputDistributionTflowUniformDistHigh ∧
    setInputDistributionsViaUxHwCall uxHwDoubleUniformDist inputDistributions
        kInputDistributionIndexT0 =
      uxHwDoubleUniformDist kDefaultInputDistributionT0UniformDistLow
        kDefaultInputDistributionT0UniformDistHigh ∧
    setInputDistributionsViaUxHwCall uxHwDoubleUniformDist inputDistributions
        kInputDistributionIndexPflow =
      uxHwDoubleUniformDist kDefaultInputDistributionPflowUniformDistLow
        kDefaultInputDistributionPflowUniformDistHigh ∧
    setInputDistributionsViaUxHwCall uxHwDoubleUniformDist inputDistributions
        kInputDistributionIndexP0 =
      uxHwDoubleUniformDist kDefaultInputDistributionP0UniformDistLow
        kDefaultInputDistributionP0UniformDistHigh ∧
    kDefaultInputDistributionHxferUniformDistLow <
      kDefaultInputDistributionHxferUniformDistHigh ∧
    kDefaultInputDistributionTflowUniformDistLow <
      kDefaultInputDistributionTflowUniformDistHigh ∧
    kDefaultInputDistributionT0UniformDistLow < kDefaultInputDistributionT0UniformDistHigh ∧
    kDefaultInputDistributionPflowUniformDistLow <
      kDefaultInputDistributionPflowUniformDistHigh ∧
    kDefaultInputDistributionP0UniformDistLow < kDefaultInputDistributionP0UniformDistHigh := by
  refine ⟨?_, ?_, ?_, ?_, ?_, ?_, ?_, ?_, ?_, ?_⟩ <;>
    norm_num [setInputDistributionsViaUxHwCall, Function.update_apply,
      kInputDistributionIndexHxfer, kInputDistributionIndexTflow, kInputDistributionIndexT0,
      kInputDistributionIndexPflow, kInputDistributionIndexP0,
      kDefaultInputDistributionHxferUniformDistLow, kDefaultInputDistributionHxferUniformDistHigh,
      kDefaultInputDistributionTflowUniformDistLow, kDefaultInputDistributionTflowUniformDistHigh,
      kDefaultInputDistributionT0UniformDistLow, kDefaultInputDistributionT0UniformDistHigh,
      kDefaultInputDistributionPflowUniformDistLow, kDefaultInputDistributionPflowUniformDistHigh,
      kDefaultInputDistributionP0UniformDistLow, kDefaultInputDistributionP0UniformDistHigh]

/-- C8: when `outputSelect = kOutputDistributionIndexMax` (compute all
outputs), the value returned by `calculateSensorOutput` is the calibrated
differential pressure output (the last branch's `calibratedValue`), not
the calibrated mass flow output; the mass flow value is available only in
the output distributions array, at the mass flow index. -/
theorem claim_C8_returnIsDifferentialPressure (arguments : CommandLineArguments)
    (inputDistributions outputDistributions : ℕ → ℚ) (calibratedValueInit : ℚ)
    (hsel : arguments.common.outputSelect = kOutputDistributionIndexMax) :
    (calculateSensorOutput arguments inputDistributions outputDistributions
        calibratedValueInit).2 =
      (calculateSensorOutput arguments inputDistributions outputDistributions
        calibratedValueInit).1 kOutputDistributionIndexCalibratedDifferentialPressureOutput ∧
    (calculateSensorOutput arguments inputDistributions outputDistributions
        calibratedValueInit).2 =
      (kSensorCalibrationConstant3 * inputDistributions kInputDistributionIndexHxfer ^ 3 +
          kSensorCalibrationConstant2 * inputDistributions kInputDistributionIndexHxfer ^ 2 +
          kSensorCalibrationConstant1) *
        (inputDistributions kInputDistributionIndexTflow /
          inputDistributions kInputDistributionIndexT0) *
        (inputDistributions kInputDistributionIndexP0 /
          inputDistributions kInputDistributionIndexPflow) ∧
    (calculateSensorOutput arguments inputDistributions outputDistributions
        calibratedValueInit).1 kOutputDistributionIndexCalibratedMassFlowOutput =
      kSensorCalibrationConstant3 * inputDistributions kInputDistributionIndexHxfer ^ 3 +
        kSensorCalibrationConstant2 * inputDistributions kInputDistributionIndexHxfer ^ 2 +
        kSensorCalibrationConstant1 := by
  refine ⟨?_, ?_, ?_⟩ <;>
    simp [calculateSensorOutput, hsel, kOutputDistributionIndexMax,
      kOutputDistributionIndexCalibratedMassFlowOutput,
      kOutputDistributionIndexCalibratedDifferentialPressureOutput,
      Function.update_apply]

theorem claim_C8_returnIsDifferentialPressure_witness :
    (calculateSensorOutput wArgsAllOutputs wIns wOuts 0).2 =
      (calculateSensorOutput wArgsAllOutputs wIns wOuts 0).1
        kOutputDistributionIndexCalibratedDifferentialPressureOutput ∧
    (calculateSensorOutput wArgsAllOutputs wIns wOuts 0).2 =
      (kSensorCalibrationConstant3 * wIns kInputDistributionIndexHxfer ^ 3 +
          kSensorCalibrationConstant2 * wIns kInputDistributionIndexHxfer ^ 2 +
          kSensorCalibrationConstant1) *
        (wIns kInputDistributionIndexTflow / wIns kInputDistributionIndexT0) *
        (wIns kInputDistributionIndexP0 / wIns kInputDistributionIndexPflow) ∧
    (calculateSensorOutput wArgsAllOutputs wIns wOuts 0).1
        kOutputDistributionIndexCalibratedMassFlowOutput =
      kSensorCalibrationConstant3 * wIns kInputDistributionIndexHxfer ^ 3 +
        kSensorCalibrationConstant2 * wIns kInputDistributionIndexHxfer ^ 2 +
        kSensorCalibrationConstant1 :=
  claim_C8_returnIsDifferentialPressure wArgsAllOutputs wIns wOuts 0 rfl

/-- C9: when `outputSelect` selects exactly one output, the call to
`calculateSensorOutput` writes only that entry of `outputDistributions`:
every other index keeps the value the array held before the call. -/
theorem claim_C9_singleOutputFrame (arguments : CommandLineArguments)
    (inputDistributions outputDistributions : ℕ → ℚ) (calibratedValueInit : ℚ) :
    (arguments.common.outputSelect = kOutputDistributionIndexCalibratedMassFlowOutput →
      ∀ i : ℕ, i ≠ kOutputDistributionIndexCalibratedMassFlowOutput →
        (calculateSensorOutput arguments inputDistributions outputDistributions
          calibratedValueInit).1 i = outputDistributions i) ∧
    (arguments.common.outputSelect =
        kOutputDistributionIndexCalibratedDifferentialPressureOutput →
      ∀ i : ℕ, i ≠ kOutputDistributionIndexCalibratedDifferentialPressureOutput →
        (calculateSensorOutput arguments inputDistributions outputDistributions
          calibratedValueInit).1 i = outputDistributions i) := by
  constructor <;> intro h i hi <;>
    simp only [kOutputDistributionIndexCalibratedMassFlowOutput,
      kOutputDistributionIndexCalibratedDifferentialPressureOutput] at hi <;>
    simp [calculateSensorOutput, h, kOutputDistributionIndexMax,
      kOutputDistributionIndexCalibratedMassFlowOutput,
      kOutputDistributionIndexCalibratedDifferentialPressureOutput,
      Function.update_apply, hi]

/-- C5: the calibration is a deterministic five-input/two-output function:
two calls to `calculateSensorOutput` with equal (validated) `outputSelect`
values and equal values in the five input entries return equal values and
write equal values to the selected output entries, regardless of every
other command-line field, of the prior contents of the output array, and
of the indeterminate initial value of the local `calibratedValue`. -/
theorem claim_C5_deterministicCalibration (argumentsA argumentsB : CommandLineArguments)
    (insA insB outsA outsB : ℕ → ℚ) (jA jB : ℚ)
    (hsel : argumentsA.common.outputSelect = argumentsB.common.outputSelect)
    (hrange : argumentsA.common.outputSelect ≤ kOutputDistributionIndexMax)
    (hins : ∀ i, i < kInputDistributionIndexMax → insA i = insB i) :
    (calculateSensorOutput argumentsA insA outsA jA).2 =
      (calculateSensorOutput argumentsB insB outsB jB).2 ∧
    ∀ i, i < kOutputDistributionIndexMax →
      outputWritten argumentsA.common.outputSelect i →
        (calculateSensorOutput argumentsA insA outsA jA).1 i =
          (calculateSensorOutput argumentsB insB outsB jB).1 i := by
  have h0 := hins 0 (by norm_num [kInputDistributionIndexMax])
  have h1 := hins 1 (by norm_num [kInputDistributionIndexMax])
  have h2 := hins 2 (by norm_num [kInputDistributionIndexMax])
  have h3 := hins 3 (by norm_num [kInputDistributionIndexMax])
  have h4 := hins 4 (by norm_num [kInputDistributionIndexMax])
  simp only [kOutputDistributionIndexMax] at hrange
  have hcase : argumentsA.common.outputSelect = 0 ∨ argumentsA.common.outputSelect = 1 ∨
      argumentsA.common.outputSelect = 2 := by omega
  rcases hcase with h | h | h
  all_goals have hB := hsel.symm.trans h
  all_goals refine ⟨?_, fun i hlt hw => ?_⟩
  · simp [calculateSensorOutput, h, hB, kOutputDistributionIndexMax,
      kOutputDistributionIndexCalibratedMassFlowOutput,
      kOutputDistributionIndexCalibratedDifferentialPressureOutput,
      kInputDistributionIndexHxfer, h0]
  · rcases hw with hw | hw
    · simp [h, kOutputDistributionIndexMax] at hw
    · have hi := hw.symm.trans h
      subst hi
      simp [calculateSensorOutput, h, hB, kOutputDistributionIndexMax,
        kOutputDistributionIndexCalibratedMassFlowOutput,
        kOutputDistributionIndexCalibratedDifferentialPressureOutput,
        kInputDistributionIndexHxfer, Function.update_apply, h0]
  · simp [calculateSensorOutput, h, hB, kOutputDistributionIndexMax,
      kOutputDistributionIndexCalibratedMassFlowOutput,
      kOutputDistributionIndexCalibratedDifferentialPressureOutput,
      kInputDistributionIndexHxfer, kInputDistributionIndexTflow, kInputDistributionIndexT0,
      kInputDistributionIndexPflow, kInputDistributionIndexP0, h0, h1, h2, h3, h4]
  · rcases hw with hw | hw
    · simp [h, kOutputDistributionIndexMax] at hw
    · have hi := hw.symm.trans h
      subst hi
      simp [calculateSensorOutput, h, hB, kOutputDistributionIndexMax,
        kOutputDistributionIndexCalibratedMassFlowOutput,
        kOutputDistributionIndexCalibratedDifferentialPressureOutput,
        kInputDistributionIndexHxfer, kInputDistributionIndexTflow, kInputDistributionIndexT0,
        kInputDistributionIndexPflow, kInputDistributionIndexP0,
        Function.update_apply, h0, h1, h2, h3, h4]
  · simp [calculateSensorOutput, h, hB, kOutputDistributionIndexMax,
      kOutputDistributionIndexCalibratedMassFlowOutput,
      kOutputDistributionIndexCalibratedDifferentialPressureOutput,
      kInputDistributionIndexHxfer, kInputDistributionIndexTflow, kInputDistributionIndexT0,
      kInputDistributionIndexPflow, kInputDistributionIndexP0, h0, h1, h2, h3, h4]
  · simp only [kOutputDistributionIndexMax] at hlt
    have hi : i = 0 ∨ i = 1 := by omega
    rcases hi with hi | hi
    all_goals subst hi
    all_goals simp [calculateSensorOutput, h, hB, kOutputDistributionIndexMax,
      kOutputDistributionIndexCalibratedMassFlowOutput,
      kOutputDistributionIndexCalibratedDifferentialPressureOutput,
      kInputDistributionIndexHxfer, kInputDistributionIndexTflow, kInputDistributionIndexT0,
      kInputDistributionIndexPflow, kInputDistributionIndexP0,
      Function.update_apply, h0, h1, h2, h3, h4]

theorem claim_C5_deterministicCalibration_witness :
    (calculateSensorOutput wArgsAllOutputs wIns wOuts 0).2 =
      (calculateSensorOutput wArgsAllOutputsB wIns wOutsB 1).2 ∧
    ∀ i, i < kOutputDistributionIndexMax →
      outputWritten wArgsAllOutputs.common.outputSelect i →
        (calculateSensorOutput wArgsAllOutputs wIns wOuts 0).1 i =
          (calculateSensorOutput wArgsAllOutputsB wIns wOutsB 1).1 i :=
  claim_C5_deterministicCalibration wArgsAllOutputs wArgsAllOutputsB wIns wIns wOuts wOutsB 0 1
    rfl (by decide) (fun i _ => rfl)

theorem claim_C9_singleOutputFrame_witness :
    (calculateSensorOutput wArgsMassFlow wIns wOuts 0).1
        kOutputDistributionIndexCalibratedDifferentialPressureOutput =
      wOuts kOutputDistributionIndexCalibratedDifferentialPressureOutput :=
  (claim_C9_singleOutputFrame wArgsMassFlow wIns wOuts 0).1 rfl
    kOutputDistributionIndexCalibratedDifferentialPressureOutput (by decide)

/-- In Monte Carlo mode, running iterations `0, …, n-1` of the main loop
appends to the sample buffer, in order, the value returned by the
calibration at each iteration, evaluated on the inputs set at that
iteration. -/
theorem mainLoop_samples_monteCarlo (arguments : CommandLineArguments)
    (uxHw : ℕ → ℚ → ℚ → ℚ) (calibratedValueInit : ℚ)
    (hMC : arguments.common.isMonteCarloMode = true)
    (s0 : MainState) (l0 : List ℚ) (h0 : s0.monteCarloOutputSamples = some l0) (n : ℕ) :
    (mainLoop arguments uxHw calibratedValueInit n s0).monteCarloOutputSamples =
      some (l0 ++ (List.range n).map (fun i =>
        (calculateSensorOutput arguments
          (setInputDistributionsViaUxHwCall (uxHw i)
            (mainLoop arguments uxHw calibratedValueInit i s0).inputDistributions)
          (mainLoop arguments uxHw calibratedValueInit i s0).outputDistributions
          calibratedValueInit).2)) := by
  induction n with
  | zero => simpa [mainLoop] using h0
  | succ n ih => simp [mainLoop, mainLoopStep, hMC, List.range_succ, ih]

/-- Outside Monte Carlo mode, the main loop never touches the (NULL)
sample buffer. -/
theorem mainLoop_samples_native (arguments : CommandLineArguments)
    (uxHw : ℕ → ℚ → ℚ → ℚ) (calibratedValueInit : ℚ)
    (hMC : arguments.common.isMonteCarloMode = false)
    (s0 : MainState) (h0 : s0.monteCarloOutputSamples = none) (n : ℕ) :
    (mainLoop arguments uxHw calibratedValueInit n s0).monteCarloOutputSamples = none := by
  induction n with
  | zero => simpa [mainLoop] using h0
  | succ n ih => simp [mainLoop, mainLoopStep, hMC, ih]

/-- Evaluating the map describing the stored samples at an index below the
iteration count. -/
theorem getD_range_map (f : ℕ → ℚ) (n i : ℕ) (h : i < n) :
    ((List.range n).map f).getD i 0 = f i := by
  rw [List.getD_eq_getElem _ _ (by simpa using h)]
  simp

/-- C4: the Monte Carlo driver loop runs exactly
`numberOfMonteCarloIterations` iterations; iteration `i` first sets the
five input distribution entries, then evaluates the calibration once on
them, and (Monte Carlo mode being enabled) stores the returned value at
index `i` of `monteCarloOutputSamples`. -/
theorem claim_C4_monteCarloLoopStoresSamples (arguments : CommandLineArguments)
    (uxHw : ℕ → ℚ → ℚ → ℚ) (calibratedValueInit : ℚ)
    (inputDistributionsInit outputDistributionsInit : ℕ → ℚ)
    (calibratedSensorOutputInit : ℚ)
    (hMC : arguments.common.isMonteCarloMode = true) :
    ∃ l : List ℚ,
      (mainLoop arguments uxHw calibratedValueInit
          arguments.common.numberOfMonteCarloIterations
          ⟨inputDistributionsInit, outputDistributionsInit, calibratedSensorOutputInit,
            some []⟩).monteCarloOutputSamples = some l ∧
      l.length = arguments.common.numberOfMonteCarloIterations ∧
      ∀ i, i < arguments.common.numberOfMonteCarloIterations →
        l.getD i 0 =
          (calculateSensorOutput arguments
            (setInputDistributionsViaUxHwCall (uxHw i)
              (mainLoop arguments uxHw calibratedValueInit i
                ⟨inputDistributionsInit, outputDistributionsInit, calibratedSensorOutputInit,
                  some []⟩).inputDistributions)
            (mainLoop arguments uxHw calibratedValueInit i
              ⟨inputDistributionsInit, outputDistributionsInit, calibratedSensorOutputInit,
                some []⟩).outputDistributions
            calibratedValueInit).2 := by
  have hs := mainLoop_samples_monteCarlo arguments uxHw calibratedValueInit hMC
    ⟨inputDistributionsInit, outputDistributionsInit, calibratedSensorOutputInit, some []⟩ []
    rfl arguments.common.numberOfMonteCarloIterations
  rw [List.nil_append] at hs
  refine ⟨_, hs, by simp, fun i hi => ?_⟩
  rw [getD_range_map _ _ _ hi]

theorem claim_C4_monteCarloLoopStoresSamples_witness :
    ∃ l : List ℚ,
      (mainLoop wArgsMonteCarlo wUxHw 0
          wArgsMonteCarlo.common.numberOfMonteCarloIterations
          ⟨wIns, wOuts, 0, some []⟩).monteCarloOutputSamples = some l ∧
      l.length = wArgsMonteCarlo.common.numberOfMonteCarloIterations ∧
      ∀ i, i < wArgsMonteCarlo.common.numberOfMonteCarloIterations →
        l.getD i 0 =
          (calculateSensorOutput wArgsMonteCarlo
            (setInputDistributionsViaUxHwCall (wUxHw i)
              (mainLoop wArgsMonteCarlo wUxHw 0 i ⟨wIns, wOuts, 0, some []⟩).inputDistributions)
            (mainLoop wArgsMonteCarlo wUxHw 0 i ⟨wIns, wOuts, 0, some []⟩).outputDistributions
            0).2 :=
  claim_C4_monteCarloLoopStoresSamples wArgsMonteCarlo wUxHw 0 wIns wOuts 0 rfl

/-- C3: in Monte Carlo mode, after the driver loop completes, the reported
calibrated sensor output equals the mean, as computed by
`calculateMeanAndVarianceOfDoubleSamples`, of the
`numberOfMonteCarloIterations` samples stored in
`monteCarloOutputSamples`. -/
theorem claim_C3_reportedIsMeanOfSamples (arguments : CommandLineArguments)
    (uxHw : ℕ → ℚ → ℚ → ℚ) (inputDistributionsInit outputDistributionsInit : ℕ → ℚ)
    (calibratedSensorOutputInit calibratedValueInit : ℚ)
    (cpuTimeUsedSecondsInit measuredCpuTimeSeconds : ℚ)
    (hMC : arguments.common.isMonteCarloMode = true) :
    ∃ l : List ℚ,
      (mainModel arguments uxHw inputDistributionsInit outputDistributionsInit
          calibratedSensorOutputInit calibratedValueInit cpuTimeUsedSecondsInit
          measuredCpuTimeSeconds).monteCarloOutputSamples = some l ∧
      l.length = arguments.common.numberOfMonteCarloIterations ∧
      (mainModel arguments uxHw inputDistributionsInit outputDistributionsInit
          calibratedSensorOutputInit calibratedValueInit cpuTimeUsedSecondsInit
          measuredCpuTimeSeconds).reportedCalibratedSensorOutput =
        (calculateMeanAndVarianceOfDoubleSamples l
          arguments.common.numberOfMonteCarloIterations).mean := by
  have hs := mainLoop_samples_monteCarlo arguments uxHw calibratedValueInit hMC
    ⟨inputDistributionsInit, outputDistributionsInit, calibratedSensorOutputInit, some []⟩ []
    rfl arguments.common.numberOfMonteCarloIterations
  rw [List.nil_append] at hs
  have hm : (mainModel arguments uxHw inputDistributionsInit outputDistributionsInit
      calibratedSensorOutputInit calibratedValueInit cpuTimeUsedSecondsInit
      measuredCpuTimeSeconds).monteCarloOutputSamples =
      some ((List.range arguments.common.numberOfMonteCarloIterations).map (fun i =>
        (calculateSensorOutput arguments
          (setInputDistributionsViaUxHwCall (uxHw i)
            (mainLoop arguments uxHw calibratedValueInit i
              ⟨inputDistributionsInit, outputDistributionsInit, calibratedSensorOutputInit,
                some []⟩).inputDistributions)
          (mainLoop arguments uxHw calibratedValueInit i
            ⟨inputDistributionsInit, outputDistributionsInit, calibratedSensorOutputInit,
              some []⟩).outputDistributions
          calibratedValueInit).2)) := by
    simpa [mainModel, hMC] using hs
  exact ⟨_, hm, by simp, by simp [mainModel, hMC, hs]⟩

theorem claim_C3_reportedIsMeanOfSamples_witness :
    ∃ l : List ℚ,
      (mainModel wArgsMonteCarlo wUxHw wIns wOuts 0 0 0 0).monteCarloOutputSamples = some l ∧
      l.length = wArgsMonteCarlo.common.numberOfMonteCarloIterations ∧
      (mainModel wArgsMonteCarlo wUxHw wIns wOuts 0 0 0 0).reportedCalibratedSensorOutput =
        (calculateMeanAndVarianceOfDoubleSamples l
          wArgsMonteCarlo.common.numberOfMonteCarloIterations).mean :=
  claim_C3_reportedIsMeanOfSamples wArgsMonteCarlo wUxHw wIns wOuts 0 0 0 0 rfl

/-- C7: uncertainty is propagated through exactly one of two modes.  With
Monte Carlo mode enabled, a sample buffer exists, holds
`numberOfMonteCarloIterations` values, and the reported output is their
aggregated mean; with it disabled, the sample buffer stays `NULL`
(`none`) and the reported output is the value returned directly by the
(distributional) evaluation in the last loop iteration. -/
theorem claim_C7_monteCarloModeSwitch (arguments : CommandLineArguments)
    (uxHw : ℕ → ℚ → ℚ → ℚ) (inputDistributionsInit outputDistributionsInit : ℕ → ℚ)
    (calibratedSensorOutputInit calibratedValueInit : ℚ)
    (cpuTimeUsedSecondsInit measuredCpuTimeSeconds : ℚ) :
    (arguments.common.isMonteCarloMode = true →
      ∃ l : List ℚ,
        (mainModel arguments uxHw inputDistributionsInit outputDistributionsInit
            calibratedSensorOutputInit calibratedValueInit cpuTimeUsedSecondsInit
            measuredCpuTimeSeconds).monteCarloOutputSamples = some l ∧
        l.length = arguments.common.numberOfMonteCarloIterations ∧
        (mainModel arguments uxHw inputDistributionsInit outputDistributionsInit
            calibratedSensorOutputInit calibratedValueInit cpuTimeUsedSecondsInit
            measuredCpuTimeSeconds).reportedCalibratedSensorOutput =
          (calculateMeanAndVarianceOfDoubleSamples l
            arguments.common.numberOfMonteCarloIterations).mean) ∧
    (arguments.common.isMonteCarloMode = false →
      (mainModel arguments uxHw inputDistributionsInit outputDistributionsInit
          calibratedSensorOutputInit calibratedValueInit cpuTimeUsedSecondsInit
          measuredCpuTimeSeconds).monteCarloOutputSamples = none ∧
      ∀ m : ℕ, arguments.common.numberOfMonteCarloIterations = m + 1 →
        (mainModel arguments uxHw inputDistributionsInit outputDistributionsInit
            calibratedSensorOutputInit calibratedValueInit cpuTimeUsedSecondsInit
            measuredCpuTimeSeconds).reportedCalibratedSensorOutput =
          (calculateSensorOutput arguments
            (setInputDistributionsViaUxHwCall (uxHw m)
              (mainLoop arguments uxHw calibratedValueInit m
                ⟨inputDistributionsInit, outputDistributionsInit, calibratedSensorOutputInit,
                  none⟩).inputDistributions)
            (mainLoop arguments uxHw calibratedValueInit m
              ⟨inputDistributionsInit, outputDistributionsInit, calibratedSensorOutputInit,
                none⟩).outputDistributions
            calibratedValueInit).2) := by
  constructor
  · intro hMC
    have hs := mainLoop_samples_monteCarlo arguments uxHw calibratedValueInit hMC
      ⟨inputDistributionsInit, outputDistributionsInit, calibratedSensorOutputInit, some []⟩ []
      rfl arguments.common.numberOfMonteCarloIterations
    rw [List.nil_append] at hs
    have hm : (mainModel arguments uxHw inputDistributionsInit outputDistributionsInit
        calibratedSensorOutputInit calibratedValueInit cpuTimeUsedSecondsInit
        measuredCpuTimeSeconds).monteCarloOutputSamples =
        some ((List.range arguments.common.numberOfMonteCarloIterations).map (fun i =>
          (calculateSensorOutput arguments
            (setInputDistributionsViaUxHwCall (uxHw i)
              (mainLoop arguments uxHw calibratedValueInit i
                ⟨inputDistributionsInit, outputDistributionsInit, calibratedSensorOutputInit,
                  some []⟩).inputDistributions)
            (mainLoop arguments uxHw calibratedValueInit i
              ⟨inputDistributionsInit, outputDistributionsInit, calibratedSensorOutputInit,
                some []⟩).outputDistributions
            calibratedValueInit).2)) := by
      simpa [mainModel, hMC] using hs
    exact ⟨_, hm, by simp, by simp [mainModel, hMC, hs]⟩
  · intro hMC
    constructor
    · have hs := mainLoop_samples_native arguments uxHw calibratedValueInit hMC
        ⟨inputDistributionsInit, outputDistributionsInit, calibratedSensorOutputInit, none⟩
        rfl arguments.common.numberOfMonteCarloIterations
      simpa [mainModel, hMC] using hs
    · intro m hm
      simp [mainModel, hMC, hm, mainLoop, mainLoopStep]

theorem claim_C7_monteCarloModeSwitch_witness :
    ∃ l : List ℚ,
      (mainModel wArgsMonteCarlo wUxHw wIns wOuts 0 0 0 0).monteCarloOutputSamples = some l ∧
      l.length = wArgsMonteCarlo.common.numberOfMonteCarloIterations ∧
      (mainModel wArgsMonteCarlo wUxHw wIns wOuts 0 0 0 0).reportedCalibratedSensorOutput =
        (calculateMeanAndVarianceOfDoubleSamples l
          wArgsMonteCarlo.common.numberOfMonteCarloIterations).mean :=
  (claim_C7_monteCarloModeSwitch wArgsMonteCarlo wUxHw wIns wOuts 0 0 0 0).1 rfl

/-- C10 is refuted by the code: in Monte Carlo mode with both the timing
and the benchmarking flags disabled, `cpuTimeUsedSeconds` is never
assigned before `main` multiplies it by `1000000` and passes it to
`saveMonteCarloDoubleDataToDataDotOutFile`.  The value handed to the save
routine equals the indeterminate initial contents of the variable
(`cpuTimeUsedSecondsInit`) scaled by `1000000` — for every choice of that
indeterminate value and of the measured CPU time — and two different
indeterminate initial values yield two different saved values, exhibiting
the read of uninitialized memory. -/
theorem claim_C10_uninitializedCpuTimeRead :
    (∀ cpuTimeUsedSecondsInit measuredCpuTimeSeconds : ℚ,
      (mainModel wArgsMonteCarlo wUxHw wIns wOuts 0 0 cpuTimeUsedSecondsInit
          measuredCpuTimeSeconds).savedCpuTimeMicroseconds =
        some (cpuTimeUsedSecondsInit * 1000000)) ∧
    (mainModel wArgsMonteCarlo wUxHw wIns wOuts 0 0 5 7).savedCpuTimeMicroseconds ≠
      (mainModel wArgsMonteCarlo wUxHw wIns wOuts 0 0 6 7).savedCpuTimeMicroseconds := by
  constructor
  · intro cpuTimeUsedSecondsInit measuredCpuTimeSeconds
    simp [mainModel, wArgsMonteCarlo]
  · simp only [mainModel, wArgsMonteCarlo]
    norm_num
